import Mathlib

/-!
Shallow embedding of `ampyche.py`, a client library for the Ampache XML
RPC protocol, together with proofs about its response-normalization layer
(entity materialization, tag collection, error detection), its request
parameter handling, and its SHA-256-based handshake.

The XML DOM is modelled by `XNode`; Python dictionaries keyed by strings
are modelled by association lists with last-write-wins insertion
(`dinsert`); Python exceptions are modelled by the `PyErr` inductive;
fallible Python code returns `Except PyErr _`.
-/

namespace Ampyche

/-- An XML DOM node: an element with a tag name, attributes and children,
a text node, or a CDATA section.  (`xml.dom.minidom` node, restricted to
the node types the library inspects.) -/
inductive XNode where
  | elem (name : String) (attrs : List (String × String)) (children : List XNode)
  | text (s : String)
  | cdata (s : String)

compile_inductive% XNode

/-- The child nodes of a node (`node.childNodes`). -/
def childrenOf : XNode → List XNode
  | .elem _ _ cs => cs
  | _ => []

/-- The tag name of an element (`node.tagName`); text and CDATA nodes
have the DOM pseudo-names. -/
def nodeName : XNode → String
  | .elem n _ _ => n
  | .text _ => "#text"
  | .cdata _ => "#cdata-section"

/-- `node.getAttribute(name)`: the attribute's value, or the empty string
when the attribute is absent (minidom's behaviour). -/
def getAttribute (node : XNode) (name : String) : String :=
  match node with
  | .elem _ attrs _ => ((attrs.find? (fun kv => kv.1 = name)).map (fun kv => kv.2)).getD ""
  | _ => ""

/-- `node.hasAttribute(name)`. -/
def hasAttribute (node : XNode) (name : String) : Bool :=
  match node with
  | .elem _ attrs _ => attrs.any (fun kv => kv.1 = name)
  | _ => false

/-- `_get_text(element)`: concatenation, in document order, of the data of
the direct child nodes that are text or CDATA nodes. -/
def getText (element : XNode) : String :=
  String.join ((childrenOf element).filterMap (fun n =>
    match n with
    | .text s => some s
    | .cdata s => some s
    | _ => none))

/-- `parent.getElementsByTagName(name)` restricted to a list of roots:
every element named `name` in the forest, in document (preorder) order.
Each root that is an element is itself eligible; text nodes contribute
nothing.  (minidom's `_get_elements_by_tagName_helper` run over
`parent.childNodes`.)  The fuel argument makes the nested recursion
structural, so that concrete documents evaluate in the kernel; any fuel
of at least `sizeOf` the forest gives the same result
(`elemsNamedGo_fuel_irrelevant`). -/
def elemsNamedGo (name : String) : Nat → List XNode → List XNode
  | 0, _ => []
  | _ + 1, [] => []
  | fuel + 1, .elem n a cs :: rest =>
      (if n = name then [XNode.elem n a cs] else []) ++
        elemsNamedGo name fuel cs ++ elemsNamedGo name fuel rest
  | fuel + 1, .text _ :: rest => elemsNamedGo name fuel rest
  | fuel + 1, .cdata _ :: rest => elemsNamedGo name fuel rest

/-- The forest search with ample fuel. -/
def elemsNamedL (name : String) (l : List XNode) : List XNode :=
  elemsNamedGo name (sizeOf l) l

/-- `node.getElementsByTagName(name)`: all descendant elements named
`name`, in document order, excluding the node itself. -/
def getElementsByTagName (node : XNode) (name : String) : List XNode :=
  elemsNamedL name (childrenOf node)

/-- Specification-side preorder traversal of a forest: every element of
the forest, in document order, with the same fuel discipline as
`elemsNamedGo`. -/
def preorderGo : Nat → List XNode → List XNode
  | 0, _ => []
  | _ + 1, [] => []
  | fuel + 1, .elem n a cs :: rest =>
      XNode.elem n a cs :: (preorderGo fuel cs ++ preorderGo fuel rest)
  | fuel + 1, .text _ :: rest => preorderGo fuel rest
  | fuel + 1, .cdata _ :: rest => preorderGo fuel rest

/-- The preorder traversal with ample fuel. -/
def preorderL (l : List XNode) : List XNode :=
  preorderGo (sizeOf l) l

/-- Specification-side list of all descendant elements of a node, in
document order (the node itself excluded). -/
def descendantElems (node : XNode) : List XNode :=
  preorderL (childrenOf node)

/-- A value stored in one of the Python dictionaries the library builds:
either a string, or the list of `(ownerId, tagText)` pairs stored under
the `tags` key. -/
inductive DVal where
  | s (v : String)
  | tagList (l : List (String × String))
deriving DecidableEq, Repr

/-- A Python dictionary with string keys, as an association list with
unique keys maintained by `dinsert`. -/
abbrev Dict := List (String × DVal)

/-- `d[k] = v` on a Python dict: overwrite the key's binding in place
when the key is present, append the new binding otherwise.  (Every dict
the library builds starts from `{}` and grows only through item
assignment, so keys are unique and in-place overwrite of the first
occurrence is exactly Python's behaviour.) -/
def dinsert (d : Dict) (k : String) (v : DVal) : Dict :=
  match d with
  | [] => [(k, v)]
  | kv :: rest => if kv.1 = k then (k, v) :: rest else kv :: dinsert rest k v

/-- `d.get(k)` on a Python dict. -/
def dlookup (d : Dict) (k : String) : Option DVal :=
  (d.find? (fun kv => kv.1 = k)).map (fun kv => kv.2)

/-- `if k in d: del d[k]` on a Python dict. -/
def derase (d : Dict) (k : String) : Dict :=
  d.filter (fun kv => ¬ kv.1 = k)

/-- The keys of a Python dict. -/
def dkeys (d : Dict) : List String :=
  d.map (fun kv => kv.1)

/-- `_dictify(element)`: flatten the element's direct element children
into a dict mapping child tag name to extracted text, additionally
recording `<childTagName>id → childIdAttribute` for children carrying an
`id` attribute.  Text and CDATA children are skipped; later children
overwrite earlier entries. -/
def dictifyStep (d : Dict) (node : XNode) : Dict :=
  match node with
  | .elem n attrs cs =>
      let d1 := if hasAttribute (.elem n attrs cs) "id" then
          dinsert d (n ++ "id") (.s (getAttribute (.elem n attrs cs) "id"))
        else d
      dinsert d1 n (.s (getText (.elem n attrs cs)))
  | _ => d

/-- `_dictify(element)` is the fold of `dictifyStep` over the element's
direct children, starting from the empty dict. -/
def dictify (element : XNode) : Dict :=
  (childrenOf element).foldl dictifyStep []

/-- The tag-collection loop of `_get_objects`: one `(ownerId, tagText)`
pair per descendant element named `tag`, where `ownerId` is the owning
entity element's own `id` attribute. -/
def collectTags (node : XNode) : List (String × String) :=
  (getElementsByTagName node "tag").map (fun t => (getAttribute node "id", getText t))

/-- The `code` argument of `AmpacheAPIError`: the source passes the
integer literal `9001` in `_get_objects` and the string attribute value
in `_request`. -/
inductive PyCode where
  | int (n : Nat)
  | str (s : String)
deriving DecidableEq, Repr

/-- A Python exception, as raised by the library. `apiError` is
`AmpacheAPIError(code, message)`; the remaining constructors are the
builtin exceptions the code can raise implicitly. -/
inductive PyErr where
  | apiError (code : PyCode) (message : String)
  | assertionError
  | typeError
  | keyError
  | valueError
  | indexError
deriving DecidableEq, Repr

/-- The `Artist` response container: every attribute is `None` unless
passed to the constructor. -/
structure Artist where
  id : Option DVal
  name : Option DVal
  albums : Option DVal
  songs : Option DVal
  tags : Option DVal
  preciserating : Option DVal
  rating : Option DVal
deriving DecidableEq, Repr

/-- The `Album` response container. -/
structure Album where
  id : Option DVal
  name : Option DVal
  artist : Option DVal
  artistid : Option DVal
  tracks : Option DVal
  disk : Option DVal
  tags : Option DVal
  art : Option DVal
  preciserating : Option DVal
  rating : Option DVal
deriving DecidableEq, Repr

/-- The `Song` response container. -/
structure Song where
  id : Option DVal
  title : Option DVal
  mime : Option DVal
  genre : Option DVal
  genreid : Option DVal
  artist : Option DVal
  artistid : Option DVal
  album : Option DVal
  albumid : Option DVal
  tags : Option DVal
  track : Option DVal
  time : Option DVal
  url : Option DVal
  size : Option DVal
  art : Option DVal
  preciserating : Option DVal
  rating : Option DVal
deriving DecidableEq, Repr

/-- The `Tag` response container.  Note that it has no `tags` attribute. -/
structure Tag where
  id : Option DVal
  name : Option DVal
  albums : Option DVal
  songs : Option DVal
  video : Option DVal
  playlist : Option DVal
  stream : Option DVal
deriving DecidableEq, Repr

/-- The `Playlist` response container. -/
structure Playlist where
  id : Option DVal
  name : Option DVal
  owner : Option DVal
  items : Option DVal
  tags : Option DVal
  type : Option DVal
deriving DecidableEq, Repr

/-- The `Video` response container. -/
structure Video where
  id : Option DVal
  title : Option DVal
  mime : Option DVal
  resolution : Option DVal
  size : Option DVal
  tags : Option DVal
  url : Option DVal
deriving DecidableEq, Repr

/-- One of the six entity kinds the library defines. -/
inductive EKind where
  | artist
  | album
  | song
  | tag
  | playlist
  | video
deriving DecidableEq, Repr

/-- A constructed response container. -/
inductive Entity where
  | artist (a : Artist)
  | album (a : Album)
  | song (s : Song)
  | tag (t : Tag)
  | playlist (p : Playlist)
  | video (v : Video)
deriving DecidableEq, Repr

/-- The keyword parameter names of each kind's `__init__`, in source
order. -/
def entityFields : EKind → List String
  | .artist => ["id", "name", "albums", "songs", "tags", "preciserating", "rating"]
  | .album => ["id", "name", "artist", "artistid", "tracks", "disk", "tags", "art",
      "preciserating", "rating"]
  | .song => ["id", "title", "mime", "genre", "genreid", "artist", "artistid", "album",
      "albumid", "tags", "track", "time", "url", "size", "art", "preciserating", "rating"]
  | .tag => ["id", "name", "albums", "songs", "video", "playlist", "stream"]
  | .playlist => ["id", "name", "owner", "items", "tags", "type"]
  | .video => ["id", "title", "mime", "resolution", "size", "tags", "url"]

/-- Build one kind's container from a keyword dict: each attribute is the
dict's value at its name, `none` (Python `None`) when the key is absent. -/
def buildEntity (k : EKind) (d : Dict) : Entity :=
  match k with
  | .artist => .artist {
      id := dlookup d "id", name := dlookup d "name", albums := dlookup d "albums",
      songs := dlookup d "songs", tags := dlookup d "tags",
      preciserating := dlookup d "preciserating", rating := dlookup d "rating" }
  | .album => .album {
      id := dlookup d "id", name := dlookup d "name", artist := dlookup d "artist",
      artistid := dlookup d "artistid", tracks := dlookup d "tracks",
      disk := dlookup d "disk", tags := dlookup d "tags", art := dlookup d "art",
      preciserating := dlookup d "preciserating", rating := dlookup d "rating" }
  | .song => .song {
      id := dlookup d "id", title := dlookup d "title", mime := dlookup d "mime",
      genre := dlookup d "genre", genreid := dlookup d "genreid",
      artist := dlookup d "artist", artistid := dlookup d "artistid",
      album := dlookup d "album", albumid := dlookup d "albumid",
      tags := dlookup d "tags", track := dlookup d "track", time := dlookup d "time",
      url := dlookup d "url", size := dlookup d "size", art := dlookup d "art",
      preciserating := dlookup d "preciserating", rating := dlookup d "rating" }
  | .tag => .tag {
      id := dlookup d "id", name := dlookup d "name", albums := dlookup d "albums",
      songs := dlookup d "songs", video := dlookup d "video",
      playlist := dlookup d "playlist", stream := dlookup d "stream" }
  | .playlist => .playlist {
      id := dlookup d "id", name := dlookup d "name", owner := dlookup d "owner",
      items := dlookup d "items", tags := dlookup d "tags", type := dlookup d "type" }
  | .video => .video {
      id := dlookup d "id", title := dlookup d "title", mime := dlookup d "mime",
      resolution := dlookup d "resolution", size := dlookup d "size",
      tags := dlookup d "tags", url := dlookup d "url" }

/-- Calling `constructor(**d)` in Python: a `TypeError` when `d` carries a
keyword that is not a parameter of the constructor, otherwise the
container with every parameter either the dict's value or `None`. -/
def mkEntity (k : EKind) (d : Dict) : Except PyErr Entity :=
  if (dkeys d).all (fun f => f ∈ entityFields k) then
    .ok (buildEntity k d)
  else
    .error .typeError

/-- Read one attribute of a constructed container by its Python name.
Attributes a kind does not define read as `none`. -/
def entityField (e : Entity) (f : String) : Option DVal :=
  match e with
  | .artist a =>
      if f = "id" then a.id else if f = "name" then a.name
      else if f = "albums" then a.albums else if f = "songs" then a.songs
      else if f = "tags" then a.tags else if f = "preciserating" then a.preciserating
      else if f = "rating" then a.rating else none
  | .album a =>
      if f = "id" then a.id else if f = "name" then a.name
      else if f = "artist" then a.artist else if f = "artistid" then a.artistid
      else if f = "tracks" then a.tracks else if f = "disk" then a.disk
      else if f = "tags" then a.tags else if f = "art" then a.art
      else if f = "preciserating" then a.preciserating
      else if f = "rating" then a.rating else none
  | .song s =>
      if f = "id" then s.id else if f = "title" then s.title
      else if f = "mime" then s.mime else if f = "genre" then s.genre
      else if f = "genreid" then s.genreid else if f = "artist" then s.artist
      else if f = "artistid" then s.artistid else if f = "album" then s.album
      else if f = "albumid" then s.albumid else if f = "tags" then s.tags
      else if f = "track" then s.track else if f = "time" then s.time
      else if f = "url" then s.url else if f = "size" then s.size
      else if f = "art" then s.art else if f = "preciserating" then s.preciserating
      else if f = "rating" then s.rating else none
  | .tag t =>
      if f = "id" then t.id else if f = "name" then t.name
      else if f = "albums" then t.albums else if f = "songs" then t.songs
      else if f = "video" then t.video else if f = "playlist" then t.playlist
      else if f = "stream" then t.stream else none
  | .playlist p =>
      if f = "id" then p.id else if f = "name" then p.name
      else if f = "owner" then p.owner else if f = "items" then p.items
      else if f = "tags" then p.tags else if f = "type" then p.type else none
  | .video v =>
      if f = "id" then v.id else if f = "title" then v.title
      else if f = "mime" then v.mime else if f = "resolution" then v.resolution
      else if f = "size" then v.size else if f = "tags" then v.tags
      else if f = "url" then v.url else none

/-- A value bound at module scope of `ampyche.py`, as far as calling it
as an entity constructor is concerned: one of the six container classes,
or anything else (calling which with the keyword dicts `_get_objects`
builds raises a `TypeError`). -/
inductive GVal where
  | ctor (k : EKind)
  | nonCtor
deriving DecidableEq, Repr

/-- The names bound at module scope of `ampyche.py` (`globals()`), with
their classification.  `Node` is `xml.dom.Node`, imported at the top of
the file; it is a class but not an entity constructor. -/
def moduleGlobals : List (String × GVal) :=
  [("namedtuple", .nonCtor), ("sha256", .nonCtor), ("join", .nonCtor),
   ("time", .nonCtor), ("urlopen", .nonCtor), ("urlencode", .nonCtor),
   ("Node", .nonCtor), ("parse", .nonCtor), ("BaseObject", .nonCtor),
   ("Artist", .ctor .artist), ("Album", .ctor .album), ("Song", .ctor .song),
   ("Tag", .ctor .tag), ("Playlist", .ctor .playlist), ("Video", .ctor .video),
   ("AmpacheAPIError", .nonCtor), ("_get_text", .nonCtor), ("_dictify", .nonCtor),
   ("_get_objects", .nonCtor), ("AmpacheServer", .nonCtor)]

/-- `globals()[name]`, `None` standing for a `KeyError`. -/
def globalsLookup (name : String) : Option GVal :=
  ((moduleGlobals.find? (fun kv => kv.1 = name)).map (fun kv => kv.2))

/-- Python 2 `str.title()` over a character list: an alphabetic character
is uppercased when the previous character is non-alphabetic, lowercased
otherwise; non-alphabetic characters pass through. -/
def pyTitleAux : Bool → List Char → List Char
  | _, [] => []
  | prevAlpha, c :: cs =>
      (if c.isAlpha then (if prevAlpha then c.toLower else c.toUpper) else c)
        :: pyTitleAux c.isAlpha cs

/-- Python 2 `tagname.title()`. -/
def pyTitle (s : String) : String :=
  ⟨pyTitleAux false s.data⟩

/-- The final keyword dict `_get_objects` builds for one matching
element: `_dictify`, then the element's own `id` attribute, then (for
every tag name other than `"tag"`) the collected tag list, then deletion
of any spurious `tag`/`tagid` keys. -/
def buildDict (tagname : String) (node : XNode) : Dict :=
  let d0 := dictify node
  let d1 := dinsert d0 "id" (.s (getAttribute node "id"))
  let d2 := if tagname ≠ "tag" then dinsert d1 "tags" (.tagList (collectTags node)) else d1
  derase (derase d2 "tag") "tagid"

/-- Calling the resolved global on a keyword dict. -/
def constructEntity : GVal → Dict → Except PyErr Entity
  | .ctor k, d => mkEntity k d
  | .nonCtor, _ => .error .typeError

/-- The element loop of `_get_objects`: construct one entity per matching
element, in order, propagating the first exception. -/
def goNodes (g : GVal) (tagname : String) : List XNode → Except PyErr (List Entity)
  | [] => .ok []
  | n :: ns =>
      match constructEntity g (buildDict tagname n) with
      | .error err => .error err
      | .ok e =>
          match goNodes g tagname ns with
          | .error err => .error err
          | .ok es => .ok (e :: es)

/-- `_get_objects(element, tagname)`: resolve
`globals()[tagname.title()]` (an `AmpacheAPIError(9001, ...)` on a
`KeyError`), then construct one container per element named `tagname`
anywhere under `element`. -/
def getObjects (element : XNode) (tagname : String) : Except PyErr (List Entity) :=
  match globalsLookup (pyTitle tagname) with
  | none => .error (.apiError (.int 9001) ("Bad tag name: " ++ tagname))
  | some g => goNodes g tagname (getElementsByTagName element tagname)

/-- The lowercase tag name the caller passes to `_get_objects` for each
of the six entity kinds. -/
def kindTag : EKind → String
  | .artist => "artist"
  | .album => "album"
  | .song => "song"
  | .tag => "tag"
  | .playlist => "playlist"
  | .video => "video"

/-- The error-detection tail of `AmpacheServer._request`: scan the parsed
document for `error` elements.  None: return the document.  Exactly one:
raise `AmpacheAPIError(code_attribute, extracted_text)`.  Two or more:
the `assert len(errors) == 1` fails first, an `AssertionError`. -/
def checkErrors (dom : XNode) : Except PyErr XNode :=
  match getElementsByTagName dom "error" with
  | [] => .ok dom
  | [err] => .error (.apiError (.str (getAttribute err "code")) (getText err))
  | _ :: _ :: _ => .error .assertionError

/-- A request followed by entity materialization, the composition every
data method uses (`artists`, `artist_songs`, `artist_albums`,
`url_to_song`): `_request` error detection, then `_get_objects`.  The
parsed response document stands in for the network round trip. -/
def requestObjects (dom : XNode) (tagname : String) : Except PyErr (List Entity) :=
  match checkErrors dom with
  | .error err => .error err
  | .ok d => getObjects d tagname

/-- `AmpacheServer.url_to_song`, given the parsed response document:
`[song] = _get_objects(dom, 'song')` destructures a one-element list and
raises a `ValueError` on any other length. -/
def urlToSong (dom : XNode) : Except PyErr Entity :=
  match checkErrors dom with
  | .error err => .error err
  | .ok d =>
      match getObjects d "song" with
      | .error err => .error err
      | .ok [s] => .ok s
      | .ok _ => .error .valueError

/-- The response-processing tail of `AmpacheServer.handshake`, given the
parsed response document: run `_request`'s error detection, then
`_dictify(dom.childNodes[0])` (an `IndexError` when the document has no
children). -/
def handshakeResponse (dom : XNode) : Except PyErr Dict :=
  match checkErrors dom with
  | .error err => .error err
  | .ok d =>
      match childrenOf d with
      | [] => .error .indexError
      | c :: _ => .ok (dictify c)

/-- The `self.auth = self.handshake(...)['auth']` step of
`AmpacheServer.__init__`, given the parsed handshake response document:
a Python dict subscript raises a `KeyError` when the key is absent, so no
server object is constructed. -/
def serverInitAuth (dom : XNode) : Except PyErr DVal :=
  match handshakeResponse dom with
  | .error err => .error err
  | .ok d =>
      match dlookup d "auth" with
      | some v => .ok v
      | none => .error .keyError

/-- A Python value passed as a keyword argument to
`AmpacheServer._request`; the call sites pass strings, `None`, booleans
and integers. -/
inductive PVal where
  | pyNone
  | pyStr (s : String)
  | pyBool (b : Bool)
  | pyInt (n : Nat)
deriving DecidableEq, Repr

/-- Python truthiness (`if v:`) of a `PVal`. -/
def truthy : PVal → Bool
  | .pyNone => false
  | .pyStr s => s ≠ ""
  | .pyBool b => b
  | .pyInt n => n ≠ 0

/-- The `filter out None values` loop of `_request`: keep exactly the
pairs whose value is truthy. -/
def filterParams (kwargs : List (String × PVal)) : List (String × PVal) :=
  kwargs.filter (fun kv => truthy kv.2)

/-- The `add our auth if it's not already in the request` step of
`_request`. -/
def injectAuth (auth : String) (kwargs : List (String × PVal)) : List (String × PVal) :=
  if kwargs.any (fun kv => kv.1 = "auth") then kwargs
  else kwargs ++ [("auth", .pyStr auth)]

/-- The parameter mapping `_request` transmits: truthiness filtering,
then auth injection. -/
def requestParams (auth : String) (kwargs : List (String × PVal)) : List (String × PVal) :=
  injectAuth auth (filterParams kwargs)

/-- Truncation to a 32-bit word. -/
def m32 (x : Nat) : Nat := x % 4294967296

/-- Right rotation of a 32-bit word by `n` places. -/
def rotr (n x : Nat) : Nat := m32 (x / 2 ^ n + x % 2 ^ n * 2 ^ (32 - n))

/-- Bitwise complement of a 32-bit word. -/
def not32 (x : Nat) : Nat := x ^^^ 4294967295

/-- SHA-256 `Ch(x,y,z)`. -/
def shaCh (x y z : Nat) : Nat := (x &&& y) ^^^ (not32 x &&& z)

/-- The majority function `Maj(x,y,z)` of SHA-256 (exclusive-or is
associative and commutative, so the grouping is immaterial). -/
def shaMaj (x y z : Nat) : Nat := (x &&& y) ^^^ ((y &&& z) ^^^ (x &&& z))

/-- SHA-256 `Σ₀`. -/
def bigSigma0 (x : Nat) : Nat := rotr 2 x ^^^ rotr 13 x ^^^ rotr 22 x

/-- SHA-256 `Σ₁`. -/
def bigSigma1 (x : Nat) : Nat := rotr 6 x ^^^ rotr 11 x ^^^ rotr 25 x

/-- SHA-256 `σ₀`. -/
def smallSigma0 (x : Nat) : Nat := rotr 7 x ^^^ rotr 18 x ^^^ x / 2 ^ 3

/-- SHA-256 `σ₁`. -/
def smallSigma1 (x : Nat) : Nat := rotr 17 x ^^^ rotr 19 x ^^^ x / 2 ^ 10

/-- The eight working variables / hash words of SHA-256. -/
structure Sha8 where
  a : Nat
  b : Nat
  c : Nat
  d : Nat
  e : Nat
  f : Nat
  g : Nat
  h : Nat
deriving DecidableEq, Repr

/-- The SHA-256 initial hash value. -/
def shaInit : Sha8 :=
  ⟨1779033703,
   3144134277,
   1013904242,
   2773480762,
   1359893119,
   2600822924,
   528734635,
   1541459225⟩

/-- The SHA-256 round constants. -/
def shaK : List Nat :=
  [1116352408, 1899447441, 3049323471, 3921009573, 961987163,
   1508970993, 2453635748, 2870763221, 3624381080, 310598401,
   607225278, 1426881987, 1925078388, 2162078206, 2614888103,
   3248222580, 3835390401, 4022224774, 264347078, 604807628,
   770255983, 1249150122, 1555081692, 1996064986, 2554220882,
   2821834349, 2952996808, 3210313671, 3336571891, 3584528711,
   113926993, 338241895, 666307205, 773529912, 1294757372,
   1396182291, 1695183700, 1986661051, 2177026350, 2456956037,
   2730485921, 2820302411, 3259730800, 3345764771, 3516065817,
   3600352804, 4094571909, 275423344, 430227734, 506948616,
   659060556, 883997877, 958139571, 1322822218, 1537002063,
   1747873779, 1955562222, 2024104815, 2227730452, 2361852424,
   2428436474, 2756734187, 3204031479, 3329325298]

/-- SHA-256 padding: append `0x80`, zero bytes to 56 mod 64, then the
bit length as eight big-endian bytes. -/
def padMsg (m : List Nat) : List Nat :=
  let L := m.length
  let zeros := (119 - L % 64) % 64
  let bits := 8 * L
  m ++ [0x80] ++ List.replicate zeros 0 ++
    [bits / 2 ^ 56 % 256, bits / 2 ^ 48 % 256, bits / 2 ^ 40 % 256, bits / 2 ^ 32 % 256,
     bits / 2 ^ 24 % 256, bits / 2 ^ 16 % 256, bits / 2 ^ 8 % 256, bits % 256]

/-- Split a byte list into 64-byte blocks; the fuel argument (at least
the list length) makes the recursion structural. -/
def chunks64Go : Nat → List Nat → List (List Nat)
  | 0, _ => []
  | _, [] => []
  | fuel + 1, b :: bs => ((b :: bs).take 64) :: chunks64Go fuel ((b :: bs).drop 64)

/-- Split a byte list into 64-byte blocks. -/
def chunks64 (l : List Nat) : List (List Nat) :=
  chunks64Go l.length l

/-- Assemble big-endian 32-bit words from bytes. -/
def toWords : List Nat → List Nat
  | b0 :: b1 :: b2 :: b3 :: rest => (((b0 * 256 + b1) * 256 + b2) * 256 + b3) :: toWords rest
  | _ => []

/-- Extend a message schedule by `n` further words. -/
def scheduleFrom (w : List Nat) : Nat → List Nat
  | 0 => w
  | n + 1 =>
      let i := w.length
      scheduleFrom
        (w ++ [m32 (w.getD (i - 16) 0 + smallSigma0 (w.getD (i - 15) 0) +
                    w.getD (i - 7) 0 + smallSigma1 (w.getD (i - 2) 0))]) n

/-- One SHA-256 compression round for a given `(K, W)` pair. -/
def compressRound (st : Sha8) (kw : Nat × Nat) : Sha8 :=
  let t1 := m32 (st.h + bigSigma1 st.e + shaCh st.e st.f st.g + kw.1 + kw.2)
  let t2 := m32 (bigSigma0 st.a + shaMaj st.a st.b st.c)
  ⟨m32 (t1 + t2), st.a, st.b, st.c, m32 (st.d + t1), st.e, st.f, st.g⟩

/-- Process one 64-byte block. -/
def processBlock (H : Sha8) (block : List Nat) : Sha8 :=
  let ws := scheduleFrom (toWords block) 48
  let st := (shaK.zip ws).foldl compressRound H
  ⟨m32 (H.a + st.a), m32 (H.b + st.b), m32 (H.c + st.c), m32 (H.d + st.d),
   m32 (H.e + st.e), m32 (H.f + st.f), m32 (H.g + st.g), m32 (H.h + st.h)⟩

/-- The four big-endian bytes of a 32-bit word. -/
def wordBytes (w : Nat) : List Nat :=
  [w / 2 ^ 24 % 256, w / 2 ^ 16 % 256, w / 2 ^ 8 % 256, w % 256]

/-- The 32 digest bytes of a final hash state. -/
def digestBytes (s : Sha8) : List Nat :=
  wordBytes s.a ++ wordBytes s.b ++ wordBytes s.c ++ wordBytes s.d ++
  wordBytes s.e ++ wordBytes s.f ++ wordBytes s.g ++ wordBytes s.h

/-- SHA-256 of a byte list. -/
def sha256bytes (m : List Nat) : List Nat :=
  digestBytes ((chunks64 (padMsg m)).foldl processBlock shaInit)

/-- The sixteen lowercase hexadecimal digits, as characters: the ten
decimal digits (codepoints 48 to 57) followed by `a` to `f` (codepoints
97 to 102). -/
def hexDigits : List Char :=
  (List.range 10).map (fun i => Char.ofNat (48 + i)) ++
    (List.range 6).map (fun i => Char.ofNat (97 + i))

/-- One lowercase hexadecimal digit; arguments are always below 16, and
any out-of-range argument still yields a hexadecimal digit. -/
def hexChar (n : Nat) : Char :=
  hexDigits.getD n 'f'

/-- Lowercase hexadecimal rendering of a byte list, two digits per byte. -/
def bytesToHex (l : List Nat) : List Char :=
  l.flatMap (fun b => [hexChar (b / 16), hexChar (b % 16)])

/-- `hashlib.sha256(m).hexdigest()`: the digest as lowercase hex. -/
def sha256hex (m : List Nat) : String :=
  ⟨bytesToHex (sha256bytes m)⟩

/-- The bytes of a Python 2 `str` (ASCII). -/
def strBytes (s : String) : List Nat :=
  s.data.map Char.toNat

/-- The auth token of `AmpacheServer.handshake`:
`sha256(ts + sha256(password).hexdigest()).hexdigest()`. -/
def handshakePassphrase (ts password : String) : String :=
  sha256hex (strBytes (ts ++ sha256hex (strBytes password)))

/-! ### Dictionary lemmas -/

theorem derase_cons_pos (kv : String × DVal) (rest : Dict) (k : String) (h : kv.1 = k) :
    derase (kv :: rest) k = derase rest k := by
  simp [derase, List.filter_cons, h]

theorem derase_cons_neg (kv : String × DVal) (rest : Dict) (k : String) (h : ¬ kv.1 = k) :
    derase (kv :: rest) k = kv :: derase rest k := by
  simp [derase, List.filter_cons, h]

theorem dlookup_nil (k : String) : dlookup [] k = none := rfl

theorem dlookup_cons_pos (kv : String × DVal) (rest : Dict) (k : String) (h : kv.1 = k) :
    dlookup (kv :: rest) k = some kv.2 := by
  simp [dlookup, List.find?_cons_of_pos, h]

theorem dlookup_cons_neg (kv : String × DVal) (rest : Dict) (k : String) (h : ¬ kv.1 = k) :
    dlookup (kv :: rest) k = dlookup rest k := by
  simp [dlookup, List.find?_cons_of_neg, h]

theorem dlookup_dinsert_self (d : Dict) (k : String) (v : DVal) :
    dlookup (dinsert d k v) k = some v := by
  induction d with
  | nil => simp [dinsert, dlookup]
  | cons kv rest ih =>
      by_cases h1 : kv.1 = k
      · rw [show dinsert (kv :: rest) k v = (k, v) :: rest by simp [dinsert, h1]]
        exact dlookup_cons_pos _ _ _ rfl
      · rw [show dinsert (kv :: rest) k v = kv :: dinsert rest k v by simp [dinsert, h1]]
        rw [dlookup_cons_neg _ _ _ h1]
        exact ih

theorem dlookup_dinsert_ne (d : Dict) (k k' : String) (v : DVal) (h : k' ≠ k) :
    dlookup (dinsert d k v) k' = dlookup d k' := by
  have hk : ¬ ((k, v).1 = k') := fun he => h he.symm
  induction d with
  | nil =>
      show dlookup [(k, v)] k' = dlookup [] k'
      rw [dlookup_cons_neg _ _ _ hk]
  | cons kv rest ih =>
      by_cases h1 : kv.1 = k
      · rw [show dinsert (kv :: rest) k v = (k, v) :: rest by simp [dinsert, h1]]
        rw [dlookup_cons_neg _ _ _ hk]
        by_cases h3 : kv.1 = k'
        · exact absurd (h3 ▸ h1) h
        · rw [dlookup_cons_neg _ _ _ h3]
      · rw [show dinsert (kv :: rest) k v = kv :: dinsert rest k v by simp [dinsert, h1]]
        by_cases h3 : kv.1 = k'
        · rw [dlookup_cons_pos _ _ _ h3, dlookup_cons_pos _ _ _ h3]
        · rw [dlookup_cons_neg _ _ _ h3, dlookup_cons_neg _ _ _ h3]
          exact ih

theorem dlookup_derase_ne (d : Dict) (k k' : String) (h : k' ≠ k) :
    dlookup (derase d k) k' = dlookup d k' := by
  induction d with
  | nil => rfl
  | cons kv rest ih =>
      by_cases h1 : kv.1 = k
      · rw [derase_cons_pos _ _ _ h1, ih, dlookup_cons_neg _ _ _ (by rw [h1]; exact fun he => h he.symm)]
      · by_cases h3 : kv.1 = k'
        · rw [derase_cons_neg _ _ _ h1, dlookup_cons_pos _ _ _ h3, dlookup_cons_pos _ _ _ h3]
        · rw [derase_cons_neg _ _ _ h1, dlookup_cons_neg _ _ _ h3, dlookup_cons_neg _ _ _ h3]
          exact ih

theorem mem_dkeys_dinsert (d : Dict) (k k' : String) (v : DVal) :
    k' ∈ dkeys (dinsert d k v) ↔ k' = k ∨ k' ∈ dkeys d := by
  induction d with
  | nil => simp [dinsert, dkeys]
  | cons kv rest ih =>
      by_cases h1 : kv.1 = k
      · rw [show dinsert (kv :: rest) k v = (k, v) :: rest by simp [dinsert, h1]]
        simp only [dkeys, List.map_cons, List.mem_cons, ← h1]
        tauto
      · rw [show dinsert (kv :: rest) k v = kv :: dinsert rest k v by simp [dinsert, h1]]
        simp only [dkeys, List.map_cons, List.mem_cons] at ih ⊢
        rw [ih]
        tauto

theorem mem_dkeys_derase (d : Dict) (k k' : String) :
    k' ∈ dkeys (derase d k) ↔ k' ∈ dkeys d ∧ k' ≠ k := by
  induction d with
  | nil => simp [derase, dkeys]
  | cons kv rest ih =>
      by_cases h1 : kv.1 = k
      · rw [derase_cons_pos _ _ _ h1, ih]
        simp only [dkeys, List.map_cons, List.mem_cons]
        constructor
        · rintro ⟨hm, hne⟩; exact ⟨Or.inr hm, hne⟩
        · rintro ⟨hm | hm, hne⟩
          · exact absurd (hm.trans h1) hne
          · exact ⟨hm, hne⟩
      · rw [derase_cons_neg _ _ _ h1]
        simp only [dkeys, List.map_cons, List.mem_cons]
        rw [show (List.map (fun kv => kv.1) (derase rest k) : List String)
              = dkeys (derase rest k) from rfl]
        rw [ih]
        constructor
        · rintro (he | ⟨hm, hne⟩)
          · exact ⟨Or.inl he, fun hc => h1 (he ▸ hc)⟩
          · exact ⟨Or.inr hm, hne⟩
        · rintro ⟨he | hm, hne⟩
          · exact Or.inl he
          · exact Or.inr ⟨hm, hne⟩

theorem dlookup_some_of_mem_dkeys (d : Dict) (k : String) (h : k ∈ dkeys d) :
    ∃ v, dlookup d k = some v := by
  induction d with
  | nil => simp [dkeys] at h
  | cons kv rest ih =>
      by_cases h1 : kv.1 = k
      · exact ⟨kv.2, dlookup_cons_pos _ _ _ h1⟩
      · have h2 : k ∈ dkeys rest := by
          rcases (by simpa [dkeys] using h : k = kv.1 ∨ k ∈ List.map (fun kv => kv.1) rest)
            with he | hm
          · exact absurd he.symm h1
          · exact hm
        rcases ih h2 with ⟨v, hv⟩
        exact ⟨v, by rw [dlookup_cons_neg _ _ _ h1]; exact hv⟩

theorem mem_dkeys_of_dlookup (d : Dict) (k : String) (v : DVal)
    (h : dlookup d k = some v) : k ∈ dkeys d := by
  induction d with
  | nil => simp [dlookup] at h
  | cons kv rest ih =>
      by_cases h1 : kv.1 = k
      · simp [dkeys, h1.symm]
      · rw [dlookup_cons_neg _ _ _ h1] at h
        exact List.mem_cons_of_mem _ (ih h)

/-! ### Lemmas about the dict `_get_objects` builds for one element -/

theorem dlookup_buildDict_id (tagname : String) (node : XNode) :
    dlookup (buildDict tagname node) "id" = some (.s (getAttribute node "id")) := by
  unfold buildDict
  rw [dlookup_derase_ne _ _ _ (by decide), dlookup_derase_ne _ _ _ (by decide)]
  by_cases h : tagname ≠ "tag"
  · rw [if_pos h, dlookup_dinsert_ne _ _ _ _ (by decide), dlookup_dinsert_self]
  · rw [if_neg h, dlookup_dinsert_self]

theorem dlookup_buildDict_tags (tagname : String) (node : XNode) (h : tagname ≠ "tag") :
    dlookup (buildDict tagname node) "tags" = some (.tagList (collectTags node)) := by
  unfold buildDict
  rw [dlookup_derase_ne _ _ _ (by decide), dlookup_derase_ne _ _ _ (by decide)]
  rw [if_pos h, dlookup_dinsert_self]

theorem mem_dkeys_buildDict_tags (tagname : String) (node : XNode) (h : tagname ≠ "tag") :
    "tags" ∈ dkeys (buildDict tagname node) :=
  mem_dkeys_of_dlookup _ _ _ (dlookup_buildDict_tags tagname node h)

/-! ### Lemmas about entity construction -/

theorem entityField_buildEntity (k : EKind) (d : Dict) (f : String)
    (hf : f ∈ entityFields k) :
    entityField (buildEntity k d) f = dlookup d f := by
  cases k <;> (simp only [entityFields] at hf; fin_cases hf <;> simp [entityField, buildEntity])

theorem mkEntity_ok_inv (k : EKind) (d : Dict) (e : Entity)
    (h : mkEntity k d = .ok e) :
    e = buildEntity k d ∧ ∀ f ∈ dkeys d, f ∈ entityFields k := by
  unfold mkEntity at h
  by_cases hall : (dkeys d).all (fun f => f ∈ entityFields k)
  · refine ⟨?_, ?_⟩
    · rw [if_pos hall] at h
      exact (Except.ok.injEq _ _ ▸ h).symm
    · intro f hfm
      exact of_decide_eq_true (List.all_eq_true.mp hall f hfm)
  · rw [if_neg hall] at h
    exact absurd h (by simp)

theorem mkEntity_unknown_key (k : EKind) (d : Dict)
    (h : ∃ f ∈ dkeys d, f ∉ entityFields k) :
    mkEntity k d = .error .typeError := by
  rcases h with ⟨f, hfm, hfn⟩
  unfold mkEntity
  rw [if_neg (fun hall => hfn (of_decide_eq_true (List.all_eq_true.mp hall f hfm)))]

/-! ### Pointwise characterization of the `_get_objects` element loop -/

theorem goNodes_ok_pointwise (g : GVal) (tagname : String) (ns : List XNode)
    (os : List Entity) (h : goNodes g tagname ns = .ok os) :
    os.length = ns.length ∧
    ∀ (i : Nat) (h1 : i < os.length) (h2 : i < ns.length),
      constructEntity g (buildDict tagname (ns.get ⟨i, h2⟩)) = .ok (os.get ⟨i, h1⟩) := by
  induction ns generalizing os with
  | nil =>
      cases os with
      | nil => exact ⟨rfl, fun i h1 h2 => absurd h2 (by simp)⟩
      | cons o os' => exact absurd h (by simp [goNodes])
  | cons n ns' ih =>
      simp only [goNodes] at h
      cases hc : constructEntity g (buildDict tagname n) with
      | error err => rw [hc] at h; simp at h
      | ok e =>
          rw [hc] at h
          cases hr : goNodes g tagname ns' with
          | error err => rw [hr] at h; simp at h
          | ok es =>
              rw [hr] at h
              simp only [Except.ok.injEq] at h
              subst h
              rcases ih es hr with ⟨hlen, hpt⟩
              refine ⟨by simp [hlen], ?_⟩
              intro i h1 h2
              cases i with
              | zero => simpa using hc
              | succ j =>
                  simp only [List.get_cons_succ]
                  exact hpt j (by simpa using h1) (by simpa using h2)

theorem goNodes_ok_mem (g : GVal) (tagname : String) (ns : List XNode)
    (os : List Entity) (h : goNodes g tagname ns = .ok os) :
    ∀ e ∈ os, ∃ n ∈ ns, constructEntity g (buildDict tagname n) = .ok e := by
  induction ns generalizing os with
  | nil =>
      cases os with
      | nil => simp
      | cons o os' => exact absurd h (by simp [goNodes])
  | cons n ns' ih =>
      simp only [goNodes] at h
      cases hc : constructEntity g (buildDict tagname n) with
      | error err => rw [hc] at h; simp at h
      | ok e =>
          rw [hc] at h
          cases hr : goNodes g tagname ns' with
          | error err => rw [hr] at h; simp at h
          | ok es =>
              rw [hr] at h
              simp only [Except.ok.injEq] at h
              subst h
              intro x hx
              rcases List.mem_cons.mp hx with rfl | hx'
              · exact ⟨n, List.mem_cons_self _ _, hc⟩
              · rcases ih es hr x hx' with ⟨n', hn', he'⟩
                exact ⟨n', List.mem_cons_of_mem _ hn', he'⟩

theorem globalsLookup_kindTag (k : EKind) :
    globalsLookup (pyTitle (kindTag k)) = some (.ctor k) := by
  cases k <;> rfl

theorem getObjects_kindTag_ok (k : EKind) (dom : XNode) (os : List Entity)
    (h : getObjects dom (kindTag k) = .ok os) :
    goNodes (.ctor k) (kindTag k) (getElementsByTagName dom (kindTag k)) = .ok os := by
  unfold getObjects at h
  rw [globalsLookup_kindTag k] at h
  exact h

/-! ### The DOM search is the name-filter of the preorder traversal -/

theorem elemsNamedGo_fuel_irrelevant (name : String) (f1 : Nat) :
    ∀ (f2 : Nat) (l : List XNode), sizeOf l ≤ f1 → sizeOf l ≤ f2 →
      elemsNamedGo name f1 l = elemsNamedGo name f2 l := by
  induction f1 with
  | zero =>
      intro f2 l h1 h2
      cases l with
      | nil => simp at h1
      | cons x rest => cases x <;> simp at h1
  | succ g1 ih =>
      intro f2 l h1 h2
      cases l with
      | nil =>
          cases f2 with
          | zero => simp at h2
          | succ g2 => simp [elemsNamedGo]
      | cons x rest =>
          cases f2 with
          | zero => cases x <;> simp at h2
          | succ g2 =>
              cases x with
              | elem n a cs =>
                  have hb : sizeOf cs ≤ g1 ∧ sizeOf cs ≤ g2 ∧
                      sizeOf rest ≤ g1 ∧ sizeOf rest ≤ g2 := by
                    simp at h1 h2
                    omega
                  simp only [elemsNamedGo]
                  rw [ih g2 cs hb.1 hb.2.1, ih g2 rest hb.2.2.1 hb.2.2.2]
              | text str =>
                  have hb : sizeOf rest ≤ g1 ∧ sizeOf rest ≤ g2 := by
                    simp at h1 h2
                    omega
                  simp only [elemsNamedGo]
                  exact ih g2 rest hb.1 hb.2
              | cdata str =>
                  have hb : sizeOf rest ≤ g1 ∧ sizeOf rest ≤ g2 := by
                    simp at h1 h2
                    omega
                  simp only [elemsNamedGo]
                  exact ih g2 rest hb.1 hb.2

theorem elemsNamedGo_eq_filter (name : String) (fuel : Nat) :
    ∀ l : List XNode,
      elemsNamedGo name fuel l = (preorderGo fuel l).filter (fun e => nodeName e = name) := by
  induction fuel with
  | zero => intro l; simp [elemsNamedGo, preorderGo]
  | succ g ih =>
      intro l
      cases l with
      | nil => simp [elemsNamedGo, preorderGo]
      | cons x rest =>
          cases x with
          | elem n a cs =>
              simp only [elemsNamedGo, preorderGo, List.filter_cons, List.filter_append, ih]
              by_cases h : n = name
              · simp [nodeName, h]
              · simp [nodeName, h]
          | text str => simp [elemsNamedGo, preorderGo, ih]
          | cdata str => simp [elemsNamedGo, preorderGo, ih]

theorem elemsNamedL_eq_filter (name : String) (l : List XNode) :
    elemsNamedL name l = (preorderL l).filter (fun e => nodeName e = name) :=
  elemsNamedGo_eq_filter name (sizeOf l) l

theorem collectTags_spec (node : XNode) :
    collectTags node =
      ((descendantElems node).filter (fun e => nodeName e = "tag")).map
        (fun t => (getAttribute node "id", getText t)) := by
  unfold collectTags getElementsByTagName descendantElems
  rw [elemsNamedL_eq_filter]

/-! ### Key membership in `_dictify` output -/

theorem mem_dkeys_dictifyStep_preserve (d : Dict) (node : XNode) (k : String)
    (h : k ∈ dkeys d) : k ∈ dkeys (dictifyStep d node) := by
  cases node with
  | elem n attrs cs =>
      simp only [dictifyStep]
      by_cases ha : hasAttribute (.elem n attrs cs) "id" = true
      · rw [if_pos ha]
        exact (mem_dkeys_dinsert _ _ _ _).mpr
          (Or.inr ((mem_dkeys_dinsert _ _ _ _).mpr (Or.inr h)))
      · rw [if_neg ha]
        exact (mem_dkeys_dinsert _ _ _ _).mpr (Or.inr h)
  | text s => exact h
  | cdata s => exact h

theorem mem_dkeys_foldl_dictifyStep (t : List XNode) (d : Dict) (k : String)
    (h : k ∈ dkeys d) : k ∈ dkeys (t.foldl dictifyStep d) := by
  induction t generalizing d with
  | nil => exact h
  | cons n t' ih => exact ih _ (mem_dkeys_dictifyStep_preserve _ _ _ h)

theorem childId_mem_dkeys_dictify (pn : String) (pattrs : List (String × String))
    (cs : List XNode) (cn : String) (ca : List (String × String)) (cc : List XNode)
    (hc : XNode.elem cn ca cc ∈ cs) (hid : hasAttribute (.elem cn ca cc) "id" = true) :
    (cn ++ "id") ∈ dkeys (dictify (.elem pn pattrs cs)) := by
  rcases List.append_of_mem hc with ⟨s, t, rfl⟩
  unfold dictify
  simp only [childrenOf, List.foldl_append, List.foldl_cons]
  apply mem_dkeys_foldl_dictifyStep
  simp only [dictifyStep, if_pos hid]
  exact (mem_dkeys_dinsert _ _ _ _).mpr
    (Or.inr ((mem_dkeys_dinsert _ _ _ _).mpr (Or.inl rfl)))

/-! ### SHA-256 structural lemmas -/

theorem sha256bytes_length (m : List Nat) : (sha256bytes m).length = 32 := by
  simp [sha256bytes, digestBytes, wordBytes]

theorem bytesToHex_length (l : List Nat) : (bytesToHex l).length = 2 * l.length := by
  induction l with
  | nil => simp [bytesToHex]
  | cons b l ih =>
      simp only [bytesToHex] at ih ⊢
      simp only [List.flatMap_cons, List.length_append, ih, List.length_cons,
        List.length_nil]
      omega

theorem hexChar_mem_digits (n : Nat) : hexChar n ∈ hexDigits := by
  unfold hexChar
  by_cases h : n < hexDigits.length
  · rw [List.getD_eq_getElem _ _ h]
    exact List.getElem_mem _
  · rw [List.getD_eq_default _ _ (by omega)]
    decide

theorem mem_bytesToHex_digits (l : List Nat) (c : Char) (h : c ∈ bytesToHex l) :
    c ∈ hexDigits := by
  unfold bytesToHex at h
  rcases List.mem_flatMap.mp h with ⟨b, _, hc⟩
  rcases (by simpa using hc : c = hexChar (b / 16) ∨ c = hexChar (b % 16)) with rfl | rfl
  · exact hexChar_mem_digits _
  · exact hexChar_mem_digits _

theorem sha256hex_length (m : List Nat) : (sha256hex m).length = 64 := by
  simp [sha256hex, String.length, bytesToHex_length, sha256bytes_length]

theorem sha256hex_data (m : List Nat) : (sha256hex m).data = bytesToHex (sha256bytes m) := rfl

/-! ### Implementation checks against published SHA-256 test vectors -/

set_option maxRecDepth 400000 in
theorem sha256hex_test_vector_empty :
    sha256hex (strBytes "") =
      "e3b0c44298fc1c149afbf4c8996fb92427ae41e4649b934ca495991b7852b855" := rfl

set_option maxRecDepth 400000 in
theorem sha256hex_test_vector_abc :
    sha256hex (strBytes "abc") =
      "ba7816bf8f01cfea414140de5dae2223b00361a396177a9cb410ff61f20015ad" := rfl

/-! ### The claims -/

/-- C4: the handshake auth token is the lowercase-hex SHA-256 of the
nonce concatenated with the lowercase-hex SHA-256 of the password; it is
always a 64-character string made of lowercase hexadecimal digits.
Determinism is inherent: the embedding is a pure function, so a fixed
nonce and password always yield this same string. -/
theorem claim_C4 (ts password : String) :
    handshakePassphrase ts password =
      sha256hex (strBytes (ts ++ sha256hex (strBytes password))) ∧
    (handshakePassphrase ts password).length = 64 ∧
    ∀ c ∈ (handshakePassphrase ts password).data, c ∈ hexDigits := by
  refine ⟨rfl, sha256hex_length _, ?_⟩
  intro c hc
  exact mem_bytesToHex_digits _ _ hc

/-- C2 (amended): for every entity-kind name whose Python title-cased
form is not a name bound at module scope, `_get_objects` fails with
`AmpacheAPIError(9001, "Bad tag name: ...")`; the failure is independent
of the document (the lookup happens before any document scanning), so no
entities are constructed.  The original claim — that this holds for
every name outside the six known kinds — fails: the module-level import
`Node` makes the non-kind name `"node"` resolve successfully. -/
theorem claim_C2_amended (tagname : String)
    (h : globalsLookup (pyTitle tagname) = none) (dom : XNode) :
    getObjects dom tagname =
      .error (.apiError (.int 9001) ("Bad tag name: " ++ tagname)) := by
  unfold getObjects
  rw [h]

theorem claim_C2_amended_witness :
    getObjects (.elem "#document" [] []) "bogus" =
      .error (.apiError (.int 9001) "Bad tag name: bogus") :=
  claim_C2_amended "bogus" rfl _

/-- C2 counterexample: `"node"` is not one of the six entity kinds, yet
`_get_objects` does not fail with the kind-resolution error: on a
document with no `node` elements it returns an empty list successfully,
because `"node".title() = "Node"` is found in the module's globals (the
`xml.dom.Node` import). -/
theorem claim_C2_counterexample :
    "node" ∉ ["artist", "album", "song", "tag", "playlist", "video"] ∧
    getObjects (.elem "#document" [] [.elem "root" [] []]) "node" = .ok [] :=
  ⟨by decide, rfl⟩

/-- C3: error detection is a three-way case split on the number of
`error` elements: zero — the document is returned unchanged; exactly
one — an `AmpacheAPIError` carrying the element's `code` attribute and
extracted text, and every materializing call on that document fails with
that same error (so no entities are produced); two or more — the
`assert` fails first, an `AssertionError`, a different constructor of
`PyErr` than any protocol error. -/
theorem claim_C3 (dom : XNode) :
    (getElementsByTagName dom "error" = [] → checkErrors dom = .ok dom) ∧
    (∀ err, getElementsByTagName dom "error" = [err] →
      checkErrors dom = .error (.apiError (.str (getAttribute err "code")) (getText err)) ∧
      ∀ tagname, requestObjects dom tagname =
        .error (.apiError (.str (getAttribute err "code")) (getText err))) ∧
    (2 ≤ (getElementsByTagName dom "error").length →
      checkErrors dom = .error .assertionError ∧
      ∀ c m, PyErr.assertionError ≠ PyErr.apiError c m) := by
  refine ⟨?_, ?_, ?_⟩
  · intro h
    unfold checkErrors
    rw [h]
  · intro err h
    have hchk : checkErrors dom =
        .error (.apiError (.str (getAttribute err "code")) (getText err)) := by
      unfold checkErrors
      rw [h]
    refine ⟨hchk, ?_⟩
    intro tagname
    unfold requestObjects
    rw [hchk]
  · intro h
    refine ⟨?_, fun c m hne => PyErr.noConfusion hne⟩
    unfold checkErrors
    cases he : getElementsByTagName dom "error" with
    | nil => rw [he] at h; simp at h
    | cons e1 es =>
        cases es with
        | nil => rw [he] at h; simp at h
        | cons e2 es' => rfl

theorem claim_C3_witness :
    checkErrors (.elem "#document" [] [.elem "root" [] []]) =
      .ok (.elem "#document" [] [.elem "root" [] []]) ∧
    checkErrors (.elem "#document" [] [.elem "root" []
        [.elem "error" [("code", "4710")] [.text "Invalid Handshake"]]]) =
      .error (.apiError (.str "4710") "Invalid Handshake") ∧
    requestObjects (.elem "#document" [] [.elem "root" []
        [.elem "error" [("code", "4710")] [.text "Invalid Handshake"]]]) "artist" =
      .error (.apiError (.str "4710") "Invalid Handshake") ∧
    checkErrors (.elem "#document" [] [.elem "root" []
        [.elem "error" [("code", "1")] [], .elem "error" [("code", "2")] []]]) =
      .error .assertionError := by
  refine ⟨(claim_C3 _).1 (by rfl), ?_, ?_, ?_⟩
  · exact ((claim_C3 _).2.1
      (.elem "error" [("code", "4710")] [.text "Invalid Handshake"]) (by rfl)).1
  · exact ((claim_C3 _).2.1
      (.elem "error" [("code", "4710")] [.text "Invalid Handshake"]) (by rfl)).2 "artist"
  · exact ((claim_C3 _).2.2 (by decide)).1

/-- C9: when the root field mapping of the handshake response lacks the
`auth` key, `AmpacheServer.__init__`'s subscript `['auth']` raises a
`KeyError` (the spec's `MissingField`), so no session value is
produced. -/
theorem claim_C9 (dom : XNode) (d : Dict)
    (h1 : handshakeResponse dom = .ok d) (h2 : dlookup d "auth" = none) :
    serverInitAuth dom = .error .keyError := by
  unfold serverInitAuth
  rw [h1]
  simp [h2]

theorem claim_C9_witness :
    serverInitAuth (.elem "#document" [] [.elem "root" []
      [.elem "version" [] [.text "350001"]]]) = .error .keyError :=
  claim_C9 _ [("version", .s "350001")] rfl rfl

/-- In a mapping with no duplicate keys, a key determines its value. -/
theorem nodupKeys_val_eq (l : List (String × PVal)) (hnd : (l.map Prod.fst).Nodup)
    (k : String) (v w : PVal) (hv : (k, v) ∈ l) (hw : (k, w) ∈ l) : v = w := by
  induction l with
  | nil => cases hv
  | cons p rest ih =>
      simp only [List.map_cons, List.nodup_cons] at hnd
      rcases List.mem_cons.mp hv with hv0 | hv'
      · rcases List.mem_cons.mp hw with hw0 | hw'
        · rw [← hv0] at hw0
          exact (Prod.mk.injEq _ _ _ _ ▸ hw0).2.symm
        · exfalso
          apply hnd.1
          rw [← hv0]
          simpa using List.mem_map_of_mem Prod.fst hw'
      · rcases List.mem_cons.mp hw with hw0 | hw'
        · exfalso
          apply hnd.1
          rw [← hw0]
          simpa using List.mem_map_of_mem Prod.fst hv'
        · exact ih hnd.2 hv' hw'

/-- C5: parameters whose value is absent (`None`) or the empty string
are omitted from the transmitted mapping; when, after that filtering, no
`auth` parameter remains, the session token is appended under `auth`;
an explicitly supplied non-absent, non-empty `auth` value is transmitted
unchanged and suppresses the injection; and the spec's round-trip
example holds literally. -/
theorem claim_C5 (auth : String) (kwargs : List (String × PVal)) :
    (∀ k v, (k, v) ∈ kwargs → (v = PVal.pyNone ∨ v = PVal.pyStr "") →
      k ≠ "auth" → (kwargs.map Prod.fst).Nodup →
      k ∉ (requestParams auth kwargs).map Prod.fst) ∧
    ("auth" ∉ (filterParams kwargs).map Prod.fst →
      requestParams auth kwargs = filterParams kwargs ++ [("auth", PVal.pyStr auth)]) ∧
    (∀ s, s ≠ "" → ("auth", PVal.pyStr s) ∈ kwargs →
      ("auth", PVal.pyStr s) ∈ requestParams auth kwargs ∧
      requestParams auth kwargs = filterParams kwargs) ∧
    requestParams auth
        [("action", .pyStr "artists"), ("filter", .pyStr "Bach"), ("exact", .pyNone)] =
      [("action", .pyStr "artists"), ("filter", .pyStr "Bach"), ("auth", .pyStr auth)] := by
  refine ⟨?_, ?_, ?_, rfl⟩
  · intro k v hkv hvne hkne hnd hmem
    have hfp : k ∉ (filterParams kwargs).map Prod.fst := by
      intro hk
      rcases List.mem_map.mp hk with ⟨⟨k1, w⟩, hmemf, hfst⟩
      rcases List.mem_filter.mp hmemf with ⟨hin, htr⟩
      have hkk : k1 = k := hfst
      subst hkk
      have hvw : v = w := nodupKeys_val_eq kwargs hnd k1 v w hkv hin
      subst hvw
      rcases hvne with rfl | rfl
      · simp [truthy] at htr
      · simp [truthy] at htr
    unfold requestParams injectAuth at hmem
    by_cases hany : (filterParams kwargs).any (fun kv => kv.1 = "auth")
    · rw [if_pos hany] at hmem
      exact hfp hmem
    · rw [if_neg hany] at hmem
      rcases List.mem_map.mp hmem with ⟨x, hx, hxf⟩
      rcases List.mem_append.mp hx with hx1 | hx2
      · exact hfp (List.mem_map.mpr ⟨x, hx1, hxf⟩)
      · rcases (by simpa using hx2 : x = ("auth", PVal.pyStr auth)) with rfl
        exact hkne hxf.symm
  · intro h
    unfold requestParams injectAuth
    rw [if_neg]
    intro hany
    rcases List.any_eq_true.mp hany with ⟨x, hx, he⟩
    exact h (List.mem_map.mpr ⟨x, hx, of_decide_eq_true he⟩)
  · intro str hs hmem
    have hfp : ("auth", PVal.pyStr str) ∈ filterParams kwargs :=
      List.mem_filter.mpr ⟨hmem, by simp [truthy, hs]⟩
    have hany : (filterParams kwargs).any (fun kv => kv.1 = "auth") = true :=
      List.any_eq_true.mpr ⟨("auth", PVal.pyStr str), hfp, by simp⟩
    unfold requestParams injectAuth
    rw [if_pos hany]
    exact ⟨hfp, rfl⟩

theorem claim_C5_witness :
    "exact" ∉ (requestParams "sessiontoken"
      [("action", .pyStr "artists"), ("filter", .pyStr "Bach"),
       ("exact", .pyNone)]).map Prod.fst :=
  (claim_C5 "sessiontoken" _).1 "exact" .pyNone (by decide) (Or.inl rfl)
    (by decide) (by decide)

/-- C7: every materialized entity's `id` attribute equals its element's
own `id` attribute — `_get_objects` overwrites the `id` key after
`_dictify`, so no nested child named `id` (nor any `id`-bearing child)
can determine it; `id`-bearing element children instead populate the
`<childTagName>id` key of the `_dictify` mapping. -/
theorem claim_C7 (dom : XNode) (tagname : String) (os : List Entity)
    (h : getObjects dom tagname = .ok os) :
    (os.length = (getElementsByTagName dom tagname).length ∧
      ∀ (i : Nat) (h1 : i < os.length) (h2 : i < (getElementsByTagName dom tagname).length),
        entityField (os.get ⟨i, h1⟩) "id" =
          some (.s (getAttribute ((getElementsByTagName dom tagname).get ⟨i, h2⟩) "id"))) ∧
    (∀ (pn : String) (pattrs : List (String × String)) (cs : List XNode)
        (cn : String) (ca : List (String × String)) (cc : List XNode),
      XNode.elem cn ca cc ∈ cs → hasAttribute (.elem cn ca cc) "id" = true →
      (cn ++ "id") ∈ dkeys (dictify (.elem pn pattrs cs))) := by
  refine ⟨?_, childId_mem_dkeys_dictify⟩
  unfold getObjects at h
  cases hg : globalsLookup (pyTitle tagname) with
  | none => rw [hg] at h; cases h
  | some g =>
      rw [hg] at h
      rcases goNodes_ok_pointwise g tagname _ os h with ⟨hlen, hpt⟩
      refine ⟨hlen, ?_⟩
      intro i h1 h2
      have hce := hpt i h1 h2
      cases g with
      | nonCtor => exact absurd hce (by simp [constructEntity])
      | ctor k =>
          rcases mkEntity_ok_inv k _ _ hce with ⟨he, _⟩
          rw [he, entityField_buildEntity k _ "id" (by cases k <;> decide)]
          exact dlookup_buildDict_id tagname _

theorem claim_C7_witness :
    entityField (Entity.song
      { id := some (.s "11"), title := some (.s "A"), mime := none, genre := none,
        genreid := none, artist := none, artistid := none, album := some (.s "X"),
        albumid := some (.s "7"),
        tags := some (.tagList [("11", "deep"), ("11", "rock")]), track := none,
        time := none, url := none, size := none, art := none, preciserating := none,
        rating := none }) "id" = some (.s "11") :=
  ((claim_C7 (.elem "#document" [] [.elem "root" [] [
      .elem "song" [("id", "11")] [
        .elem "title" [] [.text "A"],
        .elem "album" [("id", "7")] [.text "X", .elem "tag" [("id", "98")] [.text "deep"]],
        .elem "tag" [("id", "99")] [.text "rock"]],
      .elem "song" [("id", "12")] [
        .elem "title" [] [.text "B"],
        .elem "tag" [] [.text "jazz"],
        .elem "tag" [] [.text "funk"]]]])
    "song"
    [Entity.song
      { id := some (.s "11"), title := some (.s "A"), mime := none, genre := none,
        genreid := none, artist := none, artistid := none, album := some (.s "X"),
        albumid := some (.s "7"),
        tags := some (.tagList [("11", "deep"), ("11", "rock")]), track := none,
        time := none, url := none, size := none, art := none, preciserating := none,
        rating := none },
     Entity.song
      { id := some (.s "12"), title := some (.s "B"), mime := none, genre := none,
        genreid := none, artist := none, artistid := none, album := none,
        albumid := none,
        tags := some (.tagList [("12", "jazz"), ("12", "funk")]), track := none,
        time := none, url := none, size := none, art := none, preciserating := none,
        rating := none }]
    (by rfl)).1.2 0 (by decide) (by decide))

/-- C8: materializing kind `tag` yields only `Tag` containers, which have
no `tags` attribute at all; materializing any other kind always attaches
a `tags` attribute (a possibly empty pair list), as the concrete
childless-artist document shows. -/
theorem claim_C8 (dom : XNode) :
    (∀ os, getObjects dom "tag" = .ok os →
      ∀ e ∈ os, (∃ t, e = .tag t) ∧ entityField e "tags" = none) ∧
    (∀ k : EKind, k ≠ .tag → ∀ os, getObjects dom (kindTag k) = .ok os →
      ∀ e ∈ os, ∃ l, entityField e "tags" = some (.tagList l)) ∧
    getObjects (.elem "#document" [] [.elem "root" [] [.elem "artist" [("id", "1")] []]])
        "artist" =
      .ok [Entity.artist
        { id := some (.s "1"), name := none, albums := none, songs := none,
          tags := some (.tagList []), preciserating := none, rating := none }] := by
  refine ⟨?_, ?_, by rfl⟩
  · intro os h e he
    unfold getObjects at h
    rw [show globalsLookup (pyTitle "tag") = some (.ctor .tag) from rfl] at h
    rcases goNodes_ok_mem _ _ _ _ h e he with ⟨n, _, hce⟩
    rcases mkEntity_ok_inv _ _ _ hce with ⟨hbe, _⟩
    rw [hbe]
    exact ⟨⟨_, rfl⟩, rfl⟩
  · intro k hk os h e he
    unfold getObjects at h
    rw [globalsLookup_kindTag k] at h
    rcases goNodes_ok_mem _ _ _ _ h e he with ⟨n, _, hce⟩
    rcases mkEntity_ok_inv _ _ _ hce with ⟨hbe, hkeys⟩
    have htag : kindTag k ≠ "tag" := by
      cases k <;> first | decide | exact absurd rfl hk
    have hmem : "tags" ∈ entityFields k :=
      hkeys _ (mem_dkeys_buildDict_tags _ n htag)
    rw [hbe, entityField_buildEntity k _ "tags" hmem, dlookup_buildDict_tags _ n htag]
    exact ⟨collectTags n, rfl⟩

theorem claim_C8_witness :
    (∃ t, Entity.tag
      { id := some (.s "5"), name := some (.s "rock"), albums := none,
        songs := none, video := none, playlist := none, stream := none } = .tag t) ∧
    entityField (Entity.tag
      { id := some (.s "5"), name := some (.s "rock"),
        albums := none, songs := none, video := none, playlist := none,
        stream := none }) "tags" = none ∧
    (∃ l, entityField (Entity.artist
      { id := some (.s "1"), name := none, albums := none,
        songs := none, tags := some (.tagList []), preciserating := none,
        rating := none }) "tags" = some (.tagList l)) := by
  refine ⟨?_, ?_, ?_⟩
  · exact ((claim_C8 (.elem "#document" [] [.elem "root" []
      [.elem "tag" [("id", "5")] [.elem "name" [] [.text "rock"]]]])).1 _ (by rfl) _
      (by decide)).1
  · exact ((claim_C8 (.elem "#document" [] [.elem "root" []
      [.elem "tag" [("id", "5")] [.elem "name" [] [.text "rock"]]]])).1 _ (by rfl) _
      (by decide)).2
  · exact (claim_C8 (.elem "#document" [] [.elem "root" []
      [.elem "artist" [("id", "1")] []]])).2.1 .artist (by decide) _ (by rfl) _
      (by decide)

/-- C6: for every materialized entity of a kind other than `tag`, the
attached tags value is exactly one pair per descendant element named
`tag` at any depth under the entity's element, in document order and
with duplicates preserved, pairing the owning element's own `id`
attribute with the tag element's extracted text. -/
theorem claim_C6 (tagname : String) (htag : tagname ≠ "tag") (dom : XNode)
    (os : List Entity) (h : getObjects dom tagname = .ok os)
    (i : Nat) (h1 : i < os.length)
    (h2 : i < (getElementsByTagName dom tagname).length) :
    entityField (os.get ⟨i, h1⟩) "tags" =
      some (.tagList
        (((descendantElems ((getElementsByTagName dom tagname).get ⟨i, h2⟩)).filter
            (fun e => nodeName e = "tag")).map
          (fun t =>
            (getAttribute ((getElementsByTagName dom tagname).get ⟨i, h2⟩) "id",
             getText t)))) := by
  unfold getObjects at h
  cases hg : globalsLookup (pyTitle tagname) with
  | none => rw [hg] at h; cases h
  | some g =>
      rw [hg] at h
      rcases goNodes_ok_pointwise g tagname _ os h with ⟨hlen, hpt⟩
      have hce := hpt i h1 h2
      cases g with
      | nonCtor => exact absurd hce (by simp [constructEntity])
      | ctor k =>
          rcases mkEntity_ok_inv k _ _ hce with ⟨hbe, hkeys⟩
          have hmem : "tags" ∈ entityFields k :=
            hkeys _ (mem_dkeys_buildDict_tags _ _ htag)
          rw [hbe, entityField_buildEntity k _ "tags" hmem,
            dlookup_buildDict_tags _ _ htag, collectTags_spec]

theorem claim_C6_witness :
    entityField (Entity.song
      { id := some (.s "21"), title := some (.s "C"), mime := none, genre := none,
        genreid := none, artist := none, artistid := none, album := some (.s "Y"),
        albumid := some (.s "8"),
        tags := some (.tagList [("21", "deep"), ("21", "rock")]), track := none,
        time := none, url := none, size := none, art := none, preciserating := none,
        rating := none }) "tags" =
      some (.tagList [("21", "deep"), ("21", "rock")]) :=
  claim_C6 "song" (by decide)
    (.elem "#document" [] [.elem "root" [] [
      .elem "song" [("id", "21")] [
        .elem "title" [] [.text "C"],
        .elem "album" [("id", "8")] [.text "Y", .elem "tag" [("id", "98")] [.text "deep"]],
        .elem "tag" [("id", "99")] [.text "rock"]]]])
    [Entity.song
      { id := some (.s "21"), title := some (.s "C"), mime := none, genre := none,
        genreid := none, artist := none, artistid := none, album := some (.s "Y"),
        albumid := some (.s "8"),
        tags := some (.tagList [("21", "deep"), ("21", "rock")]), track := none,
        time := none, url := none, size := none, art := none, preciserating := none,
        rating := none }]
    (by rfl) 0 (by decide) (by decide)

/-- C1 (amended): a matching element's entity is constructed precisely
when every key of its final field mapping is a constructor parameter of
the kind — an unknown mapping key makes construction fail with a
`TypeError` rather than being ignored — and in a successful
construction every parameter of the kind that is absent from the
mapping is the explicit `None`, never a default like zero or the empty
string. -/
theorem claim_C1_amended (k : EKind) (dom : XNode) :
    (∀ os, getObjects dom (kindTag k) = .ok os →
      ∀ (i : Nat) (h1 : i < os.length)
        (h2 : i < (getElementsByTagName dom (kindTag k)).length),
        (∀ f ∈ dkeys (buildDict (kindTag k)
            ((getElementsByTagName dom (kindTag k)).get ⟨i, h2⟩)), f ∈ entityFields k) ∧
        (∀ f ∈ entityFields k,
          dlookup (buildDict (kindTag k)
            ((getElementsByTagName dom (kindTag k)).get ⟨i, h2⟩)) f = none →
          entityField (os.get ⟨i, h1⟩) f = none)) ∧
    (∀ d : Dict, (∃ f ∈ dkeys d, f ∉ entityFields k) →
      mkEntity k d = .error .typeError) := by
  refine ⟨?_, mkEntity_unknown_key k⟩
  intro os h i h1 h2
  have h2' := getObjects_kindTag_ok k dom os h
  rcases goNodes_ok_pointwise _ _ _ _ h2' with ⟨hlen, hpt⟩
  have hce := hpt i h1 h2
  rcases mkEntity_ok_inv k _ _ hce with ⟨hbe, hkeys⟩
  refine ⟨hkeys, ?_⟩
  intro f hf hnone
  rw [hbe, entityField_buildEntity k _ f hf, hnone]

theorem claim_C1_amended_witness :
    entityField (Entity.artist
      { id := some (.s "1"), name := some (.s "Bach"), albums := none, songs := none,
        tags := some (.tagList []), preciserating := none, rating := none })
      "rating" = none ∧
    mkEntity EKind.artist [("foo", DVal.s "x")] = .error .typeError := by
  constructor
  · exact ((claim_C1_amended EKind.artist
      (.elem "#document" [] [.elem "root" []
        [.elem "artist" [("id", "1")] [.elem "name" [] [.text "Bach"]]]])).1
      [Entity.artist
        { id := some (.s "1"), name := some (.s "Bach"), albums := none, songs := none,
          tags := some (.tagList []), preciserating := none, rating := none }]
      (by rfl) 0 (by decide) (by decide)).2 "rating" (by decide) (by rfl)
  · exact (claim_C1_amended EKind.artist (.elem "#document" [] [])).2
      [("foo", DVal.s "x")] ⟨"foo", by decide, by decide⟩

/-- C1 counterexample: the claim that unknown mapping keys are ignored
fails — an `artist` element with a child `foo` makes construction raise
a `TypeError` (Python rejects unexpected keyword arguments), so the
entity is not constructed. -/
theorem claim_C1_counterexample :
    getObjects (.elem "#document" [] [.elem "root" []
      [.elem "artist" [("id", "1")] [.elem "foo" [] [.text "x"]]]]) "artist" =
      .error .typeError := by
  rfl

/-- C10 (amended): for an error-free response document, `url_to_song`
returns a single entity only if the document contains exactly one `song`
element; any other count always fails; and whenever materialization of
the song list itself succeeds, the call succeeds exactly when the count
is one.  The original biconditional fails without the last proviso: a
single `song` element whose field mapping has a key that is not a `Song`
parameter makes materialization raise a `TypeError` instead of
returning the song. -/
theorem claim_C10_amended (dom : XNode)
    (hfree : getElementsByTagName dom "error" = []) :
    (∀ s, urlToSong dom = .ok s → (getElementsByTagName dom "song").length = 1) ∧
    ((getElementsByTagName dom "song").length ≠ 1 →
      ∀ s, urlToSong dom ≠ .ok s) ∧
    (∀ os, getObjects dom "song" = .ok os → (getElementsByTagName dom "song").length = 1 →
      ∀ (h1 : 0 < os.length), urlToSong dom = .ok (os.get ⟨0, h1⟩)) := by
  have hchk : checkErrors dom = .ok dom := by
    unfold checkErrors
    rw [hfree]
  have hurl : urlToSong dom = (match getObjects dom "song" with
      | .error err => .error err
      | .ok [s] => .ok s
      | .ok _ => .error .valueError) := by
    unfold urlToSong
    rw [hchk]
  have hlen_of : ∀ os, getObjects dom "song" = .ok os →
      os.length = (getElementsByTagName dom "song").length := by
    intro os hgo
    exact (goNodes_ok_pointwise _ _ _ _ (getObjects_kindTag_ok .song dom os hgo)).1
  have hone : ∀ s, urlToSong dom = .ok s →
      (getElementsByTagName dom "song").length = 1 := by
    intro s hs
    rw [hurl] at hs
    cases hgo : getObjects dom "song" with
    | error err => rw [hgo] at hs; simp at hs
    | ok os =>
        rw [hgo] at hs
        cases os with
        | nil => simp at hs
        | cons x rest =>
            cases rest with
            | nil => rw [← hlen_of [x] hgo]; rfl
            | cons y rest2 => simp at hs
  refine ⟨hone, ?_, ?_⟩
  · intro hne s hs
    exact hne (hone s hs)
  · intro os hgo hcnt h1
    rw [hurl, hgo]
    have hlo : os.length = 1 := by rw [hlen_of os hgo]; exact hcnt
    cases os with
    | nil => simp at hlo
    | cons x rest =>
        cases rest with
        | nil => rfl
        | cons y rest2 => simp at hlo

theorem claim_C10_amended_witness :
    (getElementsByTagName (.elem "#document" [] [.elem "root" []
      [.elem "song" [("id", "9")] [.elem "title" [] [.text "T"]]]]) "song").length = 1 :=
  (claim_C10_amended (.elem "#document" [] [.elem "root" []
      [.elem "song" [("id", "9")] [.elem "title" [] [.text "T"]]]]) (by rfl)).1
    (Entity.song
      { id := some (.s "9"), title := some (.s "T"), mime := none, genre := none,
        genreid := none, artist := none, artistid := none, album := none,
        albumid := none, tags := some (.tagList []), track := none,
        time := none, url := none, size := none, art := none, preciserating := none,
        rating := none })
    (by rfl)

/-- C10 counterexample: an error-free document with exactly one `song`
element — whose only child is the non-`Song`-field `foo` — makes
`url_to_song` fail with a `TypeError` instead of returning a single
song, so the claimed biconditional does not hold as stated. -/
theorem claim_C10_counterexample :
    getElementsByTagName (.elem "#document" [] [.elem "root" []
      [.elem "song" [("id", "1")] [.elem "foo" [] [.text "x"]]]]) "error" = [] ∧
    (getElementsByTagName (.elem "#document" [] [.elem "root" []
      [.elem "song" [("id", "1")] [.elem "foo" [] [.text "x"]]]]) "song").length = 1 ∧
    urlToSong (.elem "#document" [] [.elem "root" []
      [.elem "song" [("id", "1")] [.elem "foo" [] [.text "x"]]]]) = .error .typeError :=
  ⟨by rfl, by rfl, by rfl⟩

end Ampyche
